import Mathlib

/-!
# Constants (Djinni generated record, `constants.hpp`)

A shallow embedding of the generated C++ header
`test-suite/generated-src/cpp/constants.hpp`:

* the fixed-width integer types of `<cstdint>` as bounded integers,
* the member declarations of `struct Constants` (nine `static ... const`
  members and two plain data members) in declaration order,
* the two-argument constructor,
* a small state machine for what client code can do with the type:
  construct, copy, move, read a field, read a constant, assign, modify a
  field in place.

The header only *declares* the static members; their initialisers live in
`constants.cpp`.  The table of static values is therefore a parameter
(`Statics`) of everything below.
-/

namespace Djinni

/-! ## Fixed-width machine integers -/

/-- A signed two's-complement integer of `w` bits: an integer in
`[-2^(w-1), 2^(w-1))`. -/
structure SInt (w : Nat) where
  val : Int
  lo : -(2 ^ (w - 1)) ≤ val
  hi : val < 2 ^ (w - 1)

instance (w : Nat) : DecidableEq (SInt w) := fun a b =>
  match a, b with
  | ⟨x, _, _⟩, ⟨y, _, _⟩ =>
    if h : x = y then isTrue (by subst h; rfl)
    else isFalse (fun e => h (congrArg SInt.val e))

/-- Reduction of an arbitrary integer to the signed two's-complement range
of `w` bits (wrap-around). -/
def wrapSigned (w : Nat) (x : Int) : Int :=
  (x + 2 ^ (w - 1)) % 2 ^ w - 2 ^ (w - 1)

/-- Reduction of an arbitrary integer to the unsigned range of `w` bits. -/
def wrapUnsigned (w : Nat) (x : Int) : Int :=
  x % 2 ^ w

/-- Conversion of an integer to a signed `w`-bit value (`w > 0`). -/
def SInt.ofInt (w : Nat) (hw : 0 < w) (x : Int) : SInt w :=
  ⟨wrapSigned w x,
   by
    unfold wrapSigned
    have hpos : (0 : Int) < 2 ^ w := by positivity
    have := Int.emod_nonneg (x + 2 ^ (w - 1)) (ne_of_gt hpos)
    omega,
   by
    unfold wrapSigned
    have hpos : (0 : Int) < 2 ^ w := by positivity
    have h1 := Int.emod_lt_of_pos (x + 2 ^ (w - 1)) hpos
    have h2 : (2 : Int) ^ w = 2 * 2 ^ (w - 1) := by
      obtain ⟨k, rfl⟩ : ∃ k, w = k + 1 := ⟨w - 1, by omega⟩
      simp [pow_succ, mul_comm]
    omega⟩

/-- The type `int8_t` of `<cstdint>`. -/
abbrev int8_t := SInt 8
/-- The type `int16_t` of `<cstdint>`. -/
abbrev int16_t := SInt 16
/-- The type `int32_t` of `<cstdint>`. -/
abbrev int32_t := SInt 32
/-- The type `int64_t` of `<cstdint>`. -/
abbrev int64_t := SInt 64

/-- Conversion to `int8_t`. -/
def int8_t.ofInt (x : Int) : int8_t := SInt.ofInt 8 (by decide) x
/-- Conversion to `int16_t`. -/
def int16_t.ofInt (x : Int) : int16_t := SInt.ofInt 16 (by decide) x
/-- Conversion to `int32_t`. -/
def int32_t.ofInt (x : Int) : int32_t := SInt.ofInt 32 (by decide) x
/-- Conversion to `int64_t`. -/
def int64_t.ofInt (x : Int) : int64_t := SInt.ofInt 64 (by decide) x

/-- The constant `INT32_MIN` of `<cstdint>`. -/
def INT32_MIN : Int := -2147483648
/-- The constant `INT32_MAX` of `<cstdint>`. -/
def INT32_MAX : Int := 2147483647

/-- A `double`, kept as its 64-bit IEEE-754 pattern; no arithmetic is
performed on it anywhere in the header. -/
structure double where
  bits : Nat
  h : bits < 2 ^ 64

/-! ## Declarations of `struct Constants` -/

/-- The C++ types that occur in the header. -/
inductive CppType
  | bool
  | int8_t
  | int16_t
  | int32_t
  | int64_t
  | double
  | string
  | optional (t : CppType)
  | Constants
  deriving DecidableEq, Repr

/-- Width in bits of the arithmetic types with a fixed width. -/
def CppType.bits : CppType → Option Nat
  | .int8_t => some 8
  | .int16_t => some 16
  | .int32_t => some 32
  | .int64_t => some 64
  | .double => some 64
  | _ => none

/-- Whether the type is a signed integer type. -/
def CppType.isSignedInteger : CppType → Bool
  | .int8_t | .int16_t | .int32_t | .int64_t => true
  | _ => false

/-- The nine static data members, header lines 13-29. -/
inductive ConstName
  | BOOL_CONSTANT
  | I8_CONSTANT
  | I16_CONSTANT
  | I32_CONSTANT
  | I64_CONSTANT
  | F64_CONSTANT
  | STRING_CONSTANT
  | OPTIONAL_INTEGER_CONSTANT
  | OBJECT_CONSTANT
  deriving DecidableEq, Repr

/-- The non-static data members, header lines 30-31. -/
inductive Field
  | some_integer
  | some_string
  deriving DecidableEq, Repr

/-- Declared type of each static member. -/
def ConstName.type : ConstName → CppType
  | .BOOL_CONSTANT => .bool
  | .I8_CONSTANT => .int8_t
  | .I16_CONSTANT => .int16_t
  | .I32_CONSTANT => .int32_t
  | .I64_CONSTANT => .int64_t
  | .F64_CONSTANT => .double
  | .STRING_CONSTANT => .string
  | .OPTIONAL_INTEGER_CONSTANT => .optional .int32_t
  | .OBJECT_CONSTANT => .Constants

/-- Whether the declaration of the static member carries `const`
(every one is written `static T const NAME;`). -/
def ConstName.isConst : ConstName → Bool
  | .BOOL_CONSTANT => true
  | .I8_CONSTANT => true
  | .I16_CONSTANT => true
  | .I32_CONSTANT => true
  | .I64_CONSTANT => true
  | .F64_CONSTANT => true
  | .STRING_CONSTANT => true
  | .OPTIONAL_INTEGER_CONSTANT => true
  | .OBJECT_CONSTANT => true

/-- Declared type of each non-static member. -/
def Field.type : Field → CppType
  | .some_integer => .int32_t
  | .some_string => .string

/-- Whether the declaration of the non-static member carries `const`
(neither does: `int32_t some_integer;`, `std::string some_string;`). -/
def Field.isConst : Field → Bool
  | .some_integer => false
  | .some_string => false

/-- A data member of the struct. -/
inductive Member
  | static (c : ConstName)
  | field (f : Field)
  deriving DecidableEq, Repr

/-- Whether the member is declared `static`. -/
def Member.isStatic : Member → Bool
  | .static _ => true
  | .field _ => false

/-- Declared type of a member. -/
def Member.type : Member → CppType
  | .static c => c.type
  | .field f => f.type

/-- The data members of `struct Constants` in declaration order. -/
def Constants.members : List Member :=
  [ .static .BOOL_CONSTANT,
    .static .I8_CONSTANT,
    .static .I16_CONSTANT,
    .static .I32_CONSTANT,
    .static .I64_CONSTANT,
    .static .F64_CONSTANT,
    .static .STRING_CONSTANT,
    .static .OPTIONAL_INTEGER_CONSTANT,
    .static .OBJECT_CONSTANT,
    .field .some_integer,
    .field .some_string ]

/-- The types of the sub-objects stored inside an object of the given type:
a struct stores its non-static members, an optional stores its payload. -/
def CppType.subobjects : CppType → List CppType
  | .Constants => (Constants.members.filter (fun m => !m.isStatic)).map Member.type
  | .optional t => [t]
  | _ => []

/-- One step of containment in the object graph: `Contains a b` when an object
of type `a` stores a sub-object of type `b`. -/
def Contains (a b : CppType) : Prop := b ∈ a.subobjects

instance (a b : CppType) : Decidable (Contains a b) :=
  inferInstanceAs (Decidable (b ∈ a.subobjects))

/-! ## The record and its constructor -/

/-- An instance of `struct Constants`: the two non-static data members. -/
structure Constants where
  some_integer : int32_t
  some_string : String
  deriving DecidableEq

/-- The cast `std::move` of `<utility>`: the value is unchanged. -/
def std.move {α : Type} (x : α) : α := x

/-- The constructor `Constants(int32_t some_integer, std::string some_string)`,
header lines 33-37. -/
def Constants.Constants (some_integer : int32_t) (some_string : String) : Djinni.Constants :=
  { some_integer := std.move some_integer
    some_string := std.move some_string }

/-- The implicitly-declared copy constructor: member-wise copy. -/
def Constants.copy_ctor (other : Djinni.Constants) : Djinni.Constants :=
  { some_integer := other.some_integer
    some_string := other.some_string }

/-- What moving from the string member leaves behind.  A moved-from
`std::string` is in a valid but unspecified state, given here as `residue`;
were the member const, `std::move` of it would copy and leave it as it is. -/
def moved_from_string (old residue : String) : String :=
  if Field.isConst .some_string then old else residue

/-- The instance left behind by the implicitly-declared move constructor
(the struct declares no copy operation, move operation or destructor, so it
has one): member-wise move, which copies the integer and moves the string. -/
def Constants.moved_from (other : Djinni.Constants) (residue : String) : Djinni.Constants :=
  { some_integer := other.some_integer
    some_string := moved_from_string other.some_string residue }

/-! ## The static members -/

/-- The values of the nine static members.  The header declares them; their
initialisers are in `constants.cpp`, so the table is a parameter. -/
structure Statics where
  BOOL_CONSTANT : Bool
  I8_CONSTANT : int8_t
  I16_CONSTANT : int16_t
  I32_CONSTANT : int32_t
  I64_CONSTANT : int64_t
  F64_CONSTANT : double
  STRING_CONSTANT : String
  OPTIONAL_INTEGER_CONSTANT : Option int32_t
  OBJECT_CONSTANT : Constants

/-- Modelled from the spec: the initialiser of `Constants::BOOL_CONSTANT`,
which is in `constants.cpp` and not in the header; `true` is the one value
the spec gives for it, as an example of the declared literal. -/
def Constants.BOOL_CONSTANT : Bool := true

/-- A value of one of the types of the header. -/
inductive Value
  | bool (b : Bool)
  | int8 (v : int8_t)
  | int16 (v : int16_t)
  | int32 (v : int32_t)
  | int64 (v : int64_t)
  | f64 (d : double)
  | string (s : String)
  | optional_int32 (o : Option int32_t)
  | record (c : Constants)

/-- The C++ type of a value. -/
def Value.type : Value → CppType
  | .bool _ => .bool
  | .int8 _ => .int8_t
  | .int16 _ => .int16_t
  | .int32 _ => .int32_t
  | .int64 _ => .int64_t
  | .f64 _ => .double
  | .string _ => .string
  | .optional_int32 _ => .optional .int32_t
  | .record _ => .Constants

/-- Reading a static member: `Constants::NAME`. -/
def Statics.read (t : Statics) : ConstName → Value
  | .BOOL_CONSTANT => .bool t.BOOL_CONSTANT
  | .I8_CONSTANT => .int8 t.I8_CONSTANT
  | .I16_CONSTANT => .int16 t.I16_CONSTANT
  | .I32_CONSTANT => .int32 t.I32_CONSTANT
  | .I64_CONSTANT => .int64 t.I64_CONSTANT
  | .F64_CONSTANT => .f64 t.F64_CONSTANT
  | .STRING_CONSTANT => .string t.STRING_CONSTANT
  | .OPTIONAL_INTEGER_CONSTANT => .optional_int32 t.OPTIONAL_INTEGER_CONSTANT
  | .OBJECT_CONSTANT => .record t.OBJECT_CONSTANT

/-- Storing a value of the right type into a static member. -/
def Statics.write (t : Statics) : ConstName → Value → Statics
  | .BOOL_CONSTANT, .bool b => { t with BOOL_CONSTANT := b }
  | .I8_CONSTANT, .int8 v => { t with I8_CONSTANT := v }
  | .I16_CONSTANT, .int16 v => { t with I16_CONSTANT := v }
  | .I32_CONSTANT, .int32 v => { t with I32_CONSTANT := v }
  | .I64_CONSTANT, .int64 v => { t with I64_CONSTANT := v }
  | .F64_CONSTANT, .f64 d => { t with F64_CONSTANT := d }
  | .STRING_CONSTANT, .string s => { t with STRING_CONSTANT := s }
  | .OPTIONAL_INTEGER_CONSTANT, .optional_int32 o => { t with OPTIONAL_INTEGER_CONSTANT := o }
  | .OBJECT_CONSTANT, .record c => { t with OBJECT_CONSTANT := c }
  | _, _ => t

/-- Reading a field of an instance: `x.some_integer`, `x.some_string`. -/
def readField (x : Constants) : Field → Value
  | .some_integer => .int32 x.some_integer
  | .some_string => .string x.some_string

/-- Storing a value of the right type into a field of an instance. -/
def writeField (x : Constants) : Field → Value → Constants
  | .some_integer, .int32 v => { x with some_integer := v }
  | .some_string, .string s => { x with some_string := s }
  | _, _ => x

/-! ## What client code can do with the type -/

/-- The objects of type `Constants` alive in a program: the static members
and the non-const instances created so far, in creation order. -/
structure State where
  statics : Statics
  locals : List Constants

/-- The operations on the type written in client code.  Instances are named
by their position in `State.locals`. -/
inductive Op
  /-- The declaration `Constants x(i, s);`. -/
  | construct (i : int32_t) (s : String)
  /-- The declaration `Constants y(x);`. -/
  | copy (x : Nat)
  /-- The declaration `Constants y(Constants::OBJECT_CONSTANT);`. -/
  | copy_constant
  /-- The declaration `Constants y(std::move(x));`, which leaves the string
  of `x` as `residue`. -/
  | move (x : Nat) (residue : String)
  /-- The declaration `Constants y(i, std::move(x.some_string));`, which
  leaves the string of `x` as `residue`. -/
  | construct_moving_string (i : int32_t) (x : Nat) (residue : String)
  /-- The expression `x.f`. -/
  | read_field (x : Nat) (f : Field)
  /-- The expression `Constants::c`. -/
  | read_constant (c : ConstName)
  /-- The expression `Constants::OBJECT_CONSTANT.f`. -/
  | read_constant_field (f : Field)
  /-- The assignment `x.some_integer = e;`, where `v` is the value of `e`
  after its implicit conversion to `int32_t`. -/
  | assign_integer (x : Nat) (v : int32_t)
  /-- The assignment `x.some_string = e;`, where `s` is the string that the
  selected `operator=` stores for `e`. -/
  | assign_string (x : Nat) (s : String)
  /-- A modification of `x.some_integer` through the non-const lvalue, such
  as `++x.some_integer;` or `x.some_integer += k;`: the new value is `g` of
  the old one. -/
  | modify_integer (x : Nat) (g : int32_t → int32_t)
  /-- A call of a non-const member of `x.some_string`, such as
  `x.some_string.clear();` or `x.some_string += t;`: the new value is `g` of
  the old one. -/
  | modify_string (x : Nat) (g : String → String)
  /-- The assignment `x = y;`. -/
  | assign (x y : Nat)
  /-- The assignment `x = std::move(y);`, which leaves the string of `y` as
  `residue`. -/
  | move_assign (x y : Nat) (residue : String)
  /-- The assignment `Constants::c = v;`. -/
  | assign_constant (c : ConstName) (v : Value)
  /-- The assignment `Constants::OBJECT_CONSTANT.f = v;`. -/
  | assign_constant_field (f : Field) (v : Value)

/-- Whether the class has implicit copy- and move-assignment operators: it
has them unless a non-static data member is const. -/
def hasCopyAssignment : Bool :=
  !Field.isConst .some_integer && !Field.isConst .some_string

/-- One operation: the state after it and the value the expression yields.
A write the compiler rejects (the target is const) and a use of an instance
that does not exist leave the state as it is and yield nothing. -/
def step (op : Op) (st : State) : State × Option Value :=
  match op with
  | .construct i s =>
    let c := Constants.Constants i s
    ({ st with locals := st.locals ++ [c] }, some (.record c))
  | .copy x =>
    match st.locals[x]? with
    | some c =>
      let d := Constants.copy_ctor c
      ({ st with locals := st.locals ++ [d] }, some (.record d))
    | none => (st, none)
  | .copy_constant =>
    let d := Constants.copy_ctor st.statics.OBJECT_CONSTANT
    ({ st with locals := st.locals ++ [d] }, some (.record d))
  | .move x residue =>
    match st.locals[x]? with
    | some c =>
      let d := Constants.copy_ctor c
      ({ st with locals := st.locals.set x (Constants.moved_from c residue) ++ [d] },
        some (.record d))
    | none => (st, none)
  | .construct_moving_string i x residue =>
    match st.locals[x]? with
    | some c =>
      let d := Constants.Constants i (std.move c.some_string)
      let c' : Constants :=
        { some_integer := c.some_integer
          some_string := moved_from_string c.some_string residue }
      ({ st with locals := st.locals.set x c' ++ [d] }, some (.record d))
    | none => (st, none)
  | .read_field x f => (st, (st.locals[x]?).map (fun c => readField c f))
  | .read_constant c => (st, some (st.statics.read c))
  | .read_constant_field f => (st, some (readField st.statics.OBJECT_CONSTANT f))
  | .assign_integer x v =>
    match st.locals[x]? with
    | some c =>
      if !Field.isConst .some_integer then
        ({ st with locals := st.locals.set x { c with some_integer := v } }, some (.int32 v))
      else (st, none)
    | none => (st, none)
  | .assign_string x s =>
    match st.locals[x]? with
    | some c =>
      if !Field.isConst .some_string then
        ({ st with locals := st.locals.set x { c with some_string := s } }, some (.string s))
      else (st, none)
    | none => (st, none)
  | .modify_integer x g =>
    match st.locals[x]? with
    | some c =>
      if !Field.isConst .some_integer then
        ({ st with locals := st.locals.set x { c with some_integer := g c.some_integer } },
          some (.int32 (g c.some_integer)))
      else (st, none)
    | none => (st, none)
  | .modify_string x g =>
    match st.locals[x]? with
    | some c =>
      if !Field.isConst .some_string then
        ({ st with locals := st.locals.set x { c with some_string := g c.some_string } },
          some (.string (g c.some_string)))
      else (st, none)
    | none => (st, none)
  | .assign x y =>
    match st.locals[x]?, st.locals[y]? with
    | some _, some d =>
      if hasCopyAssignment then
        ({ st with locals := st.locals.set x (Constants.copy_ctor d) }, some (.record d))
      else (st, none)
    | _, _ => (st, none)
  | .move_assign x y residue =>
    match st.locals[x]?, st.locals[y]? with
    | some _, some d =>
      if hasCopyAssignment then
        ({ st with locals :=
            (st.locals.set x (Constants.copy_ctor d)).set y (Constants.moved_from d residue) },
          some (.record d))
      else (st, none)
    | _, _ => (st, none)
  | .assign_constant c v =>
    if !c.isConst && v.type = c.type then
      ({ st with statics := st.statics.write c v }, some v)
    else (st, none)
  | .assign_constant_field f v =>
    if !ConstName.isConst .OBJECT_CONSTANT && !f.isConst && v.type = f.type then
      ({ st with statics :=
          { st.statics with OBJECT_CONSTANT := writeField st.statics.OBJECT_CONSTANT f v } },
        some v)
    else (st, none)

/-- A sequence of operations, left to right. -/
def run : List Op → State → State
  | [], st => st
  | op :: ops, st => run ops (step op st).1

/-- Nesting depth of a type in the object graph. -/
def CppType.depth : CppType → Nat
  | .Constants => 1
  | .optional t => t.depth + 1
  | _ => 0

theorem SInt.ext_val {w : Nat} : ∀ {a b : SInt w}, a.val = b.val → a = b
  | ⟨_, _, _⟩, ⟨_, _, _⟩, rfl => rfl

theorem two_pow_pred (w : Nat) (hw : 0 < w) : (2 : Int) ^ w = 2 * 2 ^ (w - 1) := by
  obtain ⟨k, rfl⟩ : ∃ k, w = k + 1 := ⟨w - 1, by omega⟩
  simp [pow_succ, mul_comm]

theorem wrapSigned_of_inRange (w : Nat) (hw : 0 < w) (x : Int)
    (lo : -(2 ^ (w - 1)) ≤ x) (hi : x < 2 ^ (w - 1)) : wrapSigned w x = x := by
  unfold wrapSigned
  have h2 := two_pow_pred w hw
  rw [Int.emod_eq_of_lt (by omega) (by omega)]
  omega

theorem SInt.ofInt_val_self (w : Nat) (hw : 0 < w) (x : SInt w) : SInt.ofInt w hw x.val = x :=
  SInt.ext_val (wrapSigned_of_inRange w hw x.val x.lo x.hi)

theorem ConstName.isConst_eq_true (c : ConstName) : c.isConst = true := by
  cases c <;> rfl

theorem step_statics (op : Op) (st : State) : (step op st).1.statics = st.statics := by
  cases op <;> simp only [step]
  case copy x => cases st.locals[x]? <;> rfl
  case move x r => cases st.locals[x]? <;> rfl
  case construct_moving_string i x r => cases st.locals[x]? <;> rfl
  case assign_integer x v => cases st.locals[x]? <;> rfl
  case assign_string x v => cases st.locals[x]? <;> rfl
  case modify_integer x g => cases st.locals[x]? <;> rfl
  case modify_string x g => cases st.locals[x]? <;> rfl
  case assign x y => cases st.locals[x]? <;> cases st.locals[y]? <;> rfl
  case move_assign x y r => cases st.locals[x]? <;> cases st.locals[y]? <;> rfl
  case assign_constant c v => simp [ConstName.isConst_eq_true]
  case assign_constant_field f v => simp [ConstName.isConst]

theorem run_statics (ops : List Op) : ∀ st : State, (run ops st).statics = st.statics := by
  induction ops with
  | nil => intro st; rfl
  | cons op ops ih => intro st; simp only [run]; rw [ih, step_statics]

theorem contains_depth_lt {a b : CppType} (h : Contains a b) : b.depth < a.depth := by
  cases a <;> simp [Contains, CppType.subobjects, Constants.members, Member.isStatic,
    Member.type, Field.type] at h
  case optional t => subst h; simp [CppType.depth]
  case Constants => rcases h with h | h <;> subst h <;> simp [CppType.depth]

theorem transGen_contains_depth_lt {a b : CppType} (h : Relation.TransGen Contains a b) :
    b.depth < a.depth := by
  induction h with
  | single h => exact contains_depth_lt h
  | tail _ h ih => exact lt_trans (contains_depth_lt h) ih

/-- C1: for every signed 32-bit integer `i` and every string `s`, the value
built by the constructor `Constants(i, s)` has `some_integer` equal to `i`
and `some_string` equal to `s`; this includes the empty string. -/
theorem Constants_ctor_fields (i : int32_t) (s : String) :
    (Constants.Constants i s).some_integer = i ∧
    (Constants.Constants i s).some_string = s ∧
    (Constants.Constants i "").some_string = "" :=
  ⟨rfl, rfl, rfl⟩

/-- C3: construction is total.  For every integer in the signed 32-bit range
`INT32_MIN ≤ i ≤ INT32_MAX` and every string there is an `int32_t` holding
`i`, the constructor returns a record with these two fields, and the
declaration `Constants x(i, s);` yields that record and adds it to the
program state whatever the state was. -/
theorem Constants_ctor_total (i : Int) (s : String) (hlo : INT32_MIN ≤ i) (hhi : i ≤ INT32_MAX) :
    ∃ (x : int32_t) (c : Constants),
      x.val = i ∧ Constants.Constants x s = c ∧
      c.some_integer.val = i ∧ c.some_string = s ∧
      ∀ st : State,
        (step (.construct x s) st).2 = some (.record c) ∧
        (step (.construct x s) st).1.locals = st.locals ++ [c] := by
  have h1 : -(2 ^ (32 - 1)) ≤ i := by unfold INT32_MIN at hlo; norm_num; omega
  have h2 : i < 2 ^ (32 - 1) := by unfold INT32_MAX at hhi; norm_num; omega
  exact ⟨⟨i, h1, h2⟩, Constants.Constants ⟨i, h1, h2⟩ s, rfl, rfl, rfl, rfl,
    fun _ => ⟨rfl, rfl⟩⟩

/-- Witness of C3 at the smallest and the largest 32-bit integer with the
empty string. -/
theorem Constants_ctor_total_witness :
    (INT32_MIN ≤ INT32_MIN ∧ INT32_MIN ≤ INT32_MAX) ∧
    (∃ (x : int32_t) (c : Constants),
      x.val = INT32_MIN ∧ Constants.Constants x "" = c ∧
      c.some_integer.val = INT32_MIN ∧ c.some_string = "" ∧
      ∀ st : State,
        (step (.construct x "") st).2 = some (.record c) ∧
        (step (.construct x "") st).1.locals = st.locals ++ [c]) ∧
    (∃ (x : int32_t) (c : Constants),
      x.val = INT32_MAX ∧ Constants.Constants x "" = c ∧
      c.some_integer.val = INT32_MAX ∧ c.some_string = "" ∧
      ∀ st : State,
        (step (.construct x "") st).2 = some (.record c) ∧
        (step (.construct x "") st).1.locals = st.locals ++ [c]) :=
  ⟨⟨by decide, by decide⟩,
   Constants_ctor_total INT32_MIN "" (by decide) (by decide),
   Constants_ctor_total INT32_MAX "" (by decide) (by decide)⟩

/-- C4: the optional-integer constant is declared `optional<int32_t>`; in
every table of static values it is absent or present with some `int32_t`,
not both, reading it yields that optional value, and the absent state
differs from present-with-`v` for every `v`, two present states being equal
only for equal integers. -/
theorem optional_integer_present_or_absent (t : Statics) :
    ConstName.type .OPTIONAL_INTEGER_CONSTANT = .optional .int32_t ∧
    t.read .OPTIONAL_INTEGER_CONSTANT = .optional_int32 t.OPTIONAL_INTEGER_CONSTANT ∧
    (t.OPTIONAL_INTEGER_CONSTANT = none ∨
      ∃ v : int32_t, t.OPTIONAL_INTEGER_CONSTANT = some v) ∧
    ¬ (t.OPTIONAL_INTEGER_CONSTANT = none ∧
      ∃ v : int32_t, t.OPTIONAL_INTEGER_CONSTANT = some v) ∧
    (∀ v : int32_t, (none : Option int32_t) ≠ some v) ∧
    (∀ v w : int32_t, (some v : Option int32_t) = some w → v = w) := by
  refine ⟨rfl, rfl, ?_, ?_, ?_, ?_⟩
  · cases h : t.OPTIONAL_INTEGER_CONSTANT with
    | none => exact Or.inl rfl
    | some v => exact Or.inr ⟨v, rfl⟩
  · rintro ⟨h0, v, hv⟩
    rw [h0] at hv
    cases hv
  · intro v h
    cases h
  · intro v w h
    cases h
    rfl

/-- C5: the integer constants `I8_CONSTANT`, `I16_CONSTANT`, `I32_CONSTANT`
and `I64_CONSTANT` are declared with signed integer types of 8, 16, 32 and
64 bits and `F64_CONSTANT` as a 64-bit double; a value of the declared type
converts to itself, is read back from the table as itself, and lies in the
signed range of its width; an 8-bit constant holding -1 reads back as -1,
while the unsigned reading of the same bits would be 255. -/
theorem integer_constants_width_fidelity :
    (ConstName.type .I8_CONSTANT = .int8_t ∧ ConstName.type .I16_CONSTANT = .int16_t ∧
      ConstName.type .I32_CONSTANT = .int32_t ∧ ConstName.type .I64_CONSTANT = .int64_t ∧
      ConstName.type .F64_CONSTANT = .double) ∧
    ((ConstName.type .I8_CONSTANT).bits = some 8 ∧ (ConstName.type .I16_CONSTANT).bits = some 16 ∧
      (ConstName.type .I32_CONSTANT).bits = some 32 ∧
      (ConstName.type .I64_CONSTANT).bits = some 64 ∧
      (ConstName.type .F64_CONSTANT).bits = some 64) ∧
    ((ConstName.type .I8_CONSTANT).isSignedInteger = true ∧
      (ConstName.type .I16_CONSTANT).isSignedInteger = true ∧
      (ConstName.type .I32_CONSTANT).isSignedInteger = true ∧
      (ConstName.type .I64_CONSTANT).isSignedInteger = true) ∧
    ((∀ x : int8_t, int8_t.ofInt x.val = x) ∧ (∀ x : int16_t, int16_t.ofInt x.val = x) ∧
      (∀ x : int32_t, int32_t.ofInt x.val = x) ∧ (∀ x : int64_t, int64_t.ofInt x.val = x)) ∧
    (∀ t : Statics,
      (∀ x : int8_t, ({ t with I8_CONSTANT := x } : Statics).read .I8_CONSTANT = .int8 x) ∧
      (∀ x : int16_t, ({ t with I16_CONSTANT := x } : Statics).read .I16_CONSTANT = .int16 x) ∧
      (∀ x : int32_t, ({ t with I32_CONSTANT := x } : Statics).read .I32_CONSTANT = .int32 x) ∧
      (∀ x : int64_t, ({ t with I64_CONSTANT := x } : Statics).read .I64_CONSTANT = .int64 x)) ∧
    (∀ t : Statics,
      (-128 ≤ t.I8_CONSTANT.val ∧ t.I8_CONSTANT.val ≤ 127) ∧
      (-32768 ≤ t.I16_CONSTANT.val ∧ t.I16_CONSTANT.val ≤ 32767) ∧
      (-2147483648 ≤ t.I32_CONSTANT.val ∧ t.I32_CONSTANT.val ≤ 2147483647) ∧
      (-9223372036854775808 ≤ t.I64_CONSTANT.val ∧
        t.I64_CONSTANT.val ≤ 9223372036854775807)) ∧
    ((int8_t.ofInt (-1)).val = -1 ∧ (int8_t.ofInt (-1)).val ≠ 255 ∧
      wrapUnsigned 8 (-1) = 255 ∧
      (int8_t.ofInt (-128)).val = -128 ∧ (int8_t.ofInt 127).val = 127) := by
  refine ⟨⟨rfl, rfl, rfl, rfl, rfl⟩, ⟨rfl, rfl, rfl, rfl, rfl⟩, ⟨rfl, rfl, rfl, rfl⟩,
    ⟨fun x => SInt.ofInt_val_self 8 _ x, fun x => SInt.ofInt_val_self 16 _ x,
      fun x => SInt.ofInt_val_self 32 _ x, fun x => SInt.ofInt_val_self 64 _ x⟩,
    fun t => ⟨fun _ => rfl, fun _ => rfl, fun _ => rfl, fun _ => rfl⟩, fun t => ?_,
    ⟨by decide, by decide, by decide, by decide, by decide⟩⟩
  have a := t.I8_CONSTANT.lo
  have b := t.I8_CONSTANT.hi
  have c := t.I16_CONSTANT.lo
  have d := t.I16_CONSTANT.hi
  have e := t.I32_CONSTANT.lo
  have f := t.I32_CONSTANT.hi
  have g := t.I64_CONSTANT.lo
  have h := t.I64_CONSTANT.hi
  norm_num at a b c d e f g h
  refine ⟨⟨a, ?_⟩, ⟨c, ?_⟩, ⟨e, ?_⟩, ⟨g, ?_⟩⟩ <;> omega

/-- C6: each of the nine named constants is read-only.  Whatever operations
of the type are run (construction, copying, field access, constant access,
and the assignments the compiler accepts), the table of static values is
the one before, a constant read afterwards yields the value read before,
and two reads in a row yield equal values. -/
theorem constants_read_only (c : ConstName) (ops : List Op) (st : State) :
    (run ops st).statics = st.statics ∧
    (step (.read_constant c) (run ops st)).2 = (step (.read_constant c) st).2 ∧
    (step (.read_constant c) (step (.read_constant c) st).1).2 =
      (step (.read_constant c) st).2 ∧
    (∀ v : Value, (step (.assign_constant c v) st).1 = st) ∧
    (∀ (f : Field) (v : Value), (step (.assign_constant_field f v) st).1 = st) := by
  refine ⟨run_statics ops st, ?_, rfl, ?_, ?_⟩
  · simp only [step, run_statics]
  · intro v
    simp [step, ConstName.isConst_eq_true]
  · intro f v
    simp [step, ConstName.isConst]

/-- C7: copying preserves the record.  For every `int32_t i` and string `s`,
a copy of `Constants(i, s)` has fields `i` and `s`; after the declarations
`Constants x(i, s); Constants y(x);` in any state, both the original `x` and
the copy `y` hold `i` and `s`.  At `i = 42`, `s = "hello"` the copy holds 42
and `"hello"`. -/
theorem copy_preserves_record (st : State) (i : int32_t) (s : String) :
    (Constants.copy_ctor (Constants.Constants i s)).some_integer = i ∧
    (Constants.copy_ctor (Constants.Constants i s)).some_string = s ∧
    (run [.construct i s, .copy st.locals.length] st).locals =
      st.locals ++ [Constants.Constants i s, Constants.Constants i s] ∧
    ((Constants.copy_ctor (Constants.Constants (int32_t.ofInt 42) "hello")).some_integer.val = 42 ∧
      (Constants.copy_ctor (Constants.Constants (int32_t.ofInt 42) "hello")).some_string =
        "hello") := by
  refine ⟨rfl, rfl, ?_, by decide, by decide⟩
  simp [run, step, Constants.copy_ctor, Constants.Constants, std.move]

/-- C8: the boolean constant equals its declared literal `true`, and a table
initialised with it yields `true` when `BOOL_CONSTANT` is read. -/
theorem BOOL_CONSTANT_reads_true (t : Statics) :
    Constants.BOOL_CONSTANT = true ∧
    ({ t with BOOL_CONSTANT := Constants.BOOL_CONSTANT } : Statics).read .BOOL_CONSTANT =
      .bool true :=
  ⟨rfl, rfl⟩

/-- C9: the record is self-referential only at the type level.  The
non-static members of the struct are exactly `some_integer : int32_t` and
`some_string : std::string`, an instance is determined by exactly these two
values, no sub-object of an instance has type `Constants`, the object graph
has no cycle, every member of type `Constants` (only `OBJECT_CONSTANT`) is
static as are all nine constants, and `OBJECT_CONSTANT` is the instance the
constructor builds from its two fields. -/
theorem record_not_self_containing :
    Constants.members.filter (fun m => !m.isStatic) =
      [.field .some_integer, .field .some_string] ∧
    CppType.subobjects .Constants = [.int32_t, .string] ∧
    Function.Bijective (fun c : Constants => (c.some_integer, c.some_string)) ∧
    ¬ Contains .Constants .Constants ∧
    (∀ a : CppType, ¬ Relation.TransGen Contains a a) ∧
    (∀ m ∈ Constants.members, m.type = .Constants → m = .static .OBJECT_CONSTANT) ∧
    Constants.members.filter (fun m => m.isStatic) =
      [.static .BOOL_CONSTANT, .static .I8_CONSTANT, .static .I16_CONSTANT,
       .static .I32_CONSTANT, .static .I64_CONSTANT, .static .F64_CONSTANT,
       .static .STRING_CONSTANT, .static .OPTIONAL_INTEGER_CONSTANT,
       .static .OBJECT_CONSTANT] ∧
    (∀ t : Statics, t.OBJECT_CONSTANT =
      Constants.Constants t.OBJECT_CONSTANT.some_integer t.OBJECT_CONSTANT.some_string) := by
  refine ⟨by decide, by decide, ⟨?_, ?_⟩, by decide, ?_, by decide, by decide, fun _ => rfl⟩
  · rintro ⟨a, b⟩ ⟨a', b'⟩ h
    simp only [Prod.mk.injEq] at h
    obtain ⟨rfl, rfl⟩ := h
    rfl
  · rintro ⟨a, b⟩
    exact ⟨⟨a, b⟩, rfl⟩
  · intro a h
    exact lt_irrefl _ (transGen_contains_depth_lt h)

end Djinni
